import Mathlib

/-!
Verification development for the pushwoosh-node client library
(src/lib/index.js, the got-based PushwooshClient class).

The JavaScript code is shallowly embedded: runtime values become the
inductive type JSVal, lodash helpers (isString, isNumber, isFunction,
extend) and the relevant pieces of the ECMAScript semantics
(property lookup and assignment, template-literal stringification,
Array.prototype.unshift, CreateListFromArrayLike as used by
Function.prototype.apply) become executable Lean functions, and each
client method becomes a function from its inputs to either a rejection
message or the request it proceeds to issue.
-/

namespace Pushwoosh

/-- JavaScript runtime values, as far as the client library manipulates
them. Numbers are modelled as integers: every number the client ever
builds or compares (HTTP status codes, minimize_link, device_type in the
claims) is integral. -/
inductive JSVal where
  | str (s : String)
  | num (n : Int)
  | bool (b : Bool)
  | obj (fields : List (String × JSVal))
  | arr (elems : List JSVal)
  | fn
  | nullV
  | undef
  deriving Repr

/-- lodash _.isString -/
def isString : JSVal → Bool
  | JSVal.str _ => true
  | _ => false

/-- lodash _.isNumber -/
def isNumber : JSVal → Bool
  | JSVal.num _ => true
  | _ => false

/-- lodash _.isFunction -/
def isFunction : JSVal → Bool
  | JSVal.fn => true
  | _ => false

/-- JavaScript truthiness (ToBoolean). -/
def truthy : JSVal → Bool
  | JSVal.str s => s ≠ ""
  | JSVal.num n => n ≠ 0
  | JSVal.bool b => b
  | JSVal.obj _ => true
  | JSVal.arr _ => true
  | JSVal.fn => true
  | JSVal.nullV => false
  | JSVal.undef => false

/-- JavaScript short-circuit disjunction a || b, on values. -/
def jsOr (a b : JSVal) : JSVal := if truthy a then a else b

/-- First binding of a key in a field list (JS objects have unique keys,
so for objects the first binding is the binding). -/
def getAssoc : List (String × JSVal) → String → Option JSVal
  | [], _ => none
  | (k', v) :: rest, k => if k' = k then some v else getAssoc rest k

/-- Last binding of a key in a (possibly duplicated) source list; this is
what a left-to-right sequence of property assignments ends up storing. -/
def lastAssoc : List (String × JSVal) → String → Option JSVal
  | [], _ => none
  | (k', v) :: rest, k =>
      match lastAssoc rest k with
      | some w => some w
      | none => if k' = k then some v else none

/-- JavaScript property assignment target[k] = v: overwrite an existing
binding in place, otherwise append the new binding. -/
def setField : List (String × JSVal) → String → JSVal → List (String × JSVal)
  | [], k, v => [(k, v)]
  | (k', v') :: rest, k, v =>
      if k' = k then (k, v) :: rest else (k', v') :: setField rest k v

/-- Property read o[k], returning undefined for a missing key. The client
only ever reads non-index keys, for which primitive receivers also give
undefined. -/
def getField (o : JSVal) (k : String) : JSVal :=
  match o with
  | JSVal.obj fs =>
      match getAssoc fs k with
      | some v => v
      | none => JSVal.undef
  | _ => JSVal.undef

/-- The own/inherited enumerable keys a value contributes as a source of
lodash _.extend (assignIn): objects give their fields, strings give their
character index keys, arrays their element index keys, null, undefined
and the remaining primitives contribute nothing. -/
def sourceFields : JSVal → List (String × JSVal)
  | JSVal.obj fs => fs
  | JSVal.str s => s.data.enum.map (fun ic => (toString ic.1, JSVal.str (String.mk [ic.2])))
  | JSVal.arr xs => xs.enum.map (fun ix => (toString ix.1, ix.2))
  | _ => []

/-- lodash _.extend(target, source): assign each enumerable key of the
source onto the target, left to right. -/
def extendFields (acc : List (String × JSVal)) (src : JSVal) : List (String × JSVal) :=
  (sourceFields src).foldl (fun a kv => setField a kv.1 kv.2) acc

/-- Template-literal stringification (ToString) of the values that can be
interpolated. -/
def jsTemplateString : JSVal → String
  | JSVal.str s => s
  | JSVal.num n => toString n
  | JSVal.bool true => "true"
  | JSVal.bool false => "false"
  | JSVal.obj _ => "[object Object]"
  | JSVal.arr xs => String.intercalate "," (xs.attach.map (fun x => jsTemplateString x.1))
  | JSVal.fn => "function"
  | JSVal.nullV => "null"
  | JSVal.undef => "undefined"
decreasing_by
  simp_wf
  have h := List.sizeOf_lt_of_mem x.2
  omega

/-- JavaScript strict equality v === n against a number literal. On our
value model this is exact: a primitive equals the literal only when it is
the same number, and an object or array reference never equals a number. -/
def strictEqNum (v : JSVal) (n : Int) : Bool :=
  match v with
  | JSVal.num m => m = n
  | _ => false

/-! ## The PushwooshClient class (src/lib/index.js) -/

/-- The module-level defaults object merged into every client instance. -/
def clientDefaults : JSVal :=
  JSVal.obj
    [("host", JSVal.str "cp.pushwoosh.com"),
     ("url", JSVal.str "https://cp.pushwoosh.com/json"),
     ("version", JSVal.str "1.3")]

/-- PushwooshClient constructor: options = options || {}; throw unless
app and token are strings; _.extend(this, defaults, options,
{app: app, token: token}). The instance is its resulting field list. -/
def construct (app token options : JSVal) : Except String (List (String × JSVal)) :=
  if isString app = false ∨ isString token = false then
    Except.error "Pushwoosh Application ID and an Authentication Token must be set"
  else
    Except.ok
      (extendFields
        (extendFields (extendFields [] clientDefaults) (jsOr options (JSVal.obj [])))
        (JSVal.obj [("app", app), ("token", token)]))

/-- A client constructed with ordinary arguments and no options. -/
def demoClient : List (String × JSVal) :=
  match construct (JSVal.str "APP-ID") (JSVal.str "AUTH-TOKEN") JSVal.undef with
  | Except.ok c => c
  | Except.error _ => []

/-- A client constructed with {useAppGroup: true}. -/
def groupClient : List (String × JSVal) :=
  match construct (JSVal.str "APP-ID") (JSVal.str "AUTH-TOKEN")
      (JSVal.obj [("useAppGroup", JSVal.bool true)]) with
  | Except.ok c => c
  | Except.error _ => []

/-- A client constructed with {timeout: 5000}. -/
def timeoutClient : List (String × JSVal) :=
  match construct (JSVal.str "APP-ID") (JSVal.str "AUTH-TOKEN")
      (JSVal.obj [("timeout", JSVal.num 5000)]) with
  | Except.ok c => c
  | Except.error _ => []

/-- A network request the client proceeds to issue: the action put in the
request path and the request body handed to the transport. -/
structure Request where
  action : String
  body : JSVal
  deriving Repr

/-- The options object sendRequest hands to got: a POST to
https://{this.host}/json/{this.version}/{action} with the body as the
json option (JSON-encoded by got) and a json responseType. This list is
exhaustive: the code passes no other option, in particular no timeout. -/
def sendRequestGotOptions (client : List (String × JSVal)) (action : String)
    (data : JSVal) : List (String × JSVal) :=
  [("method", JSVal.str "POST"),
   ("url", JSVal.str ("https://" ++ jsTemplateString (getField (JSVal.obj client) "host")
      ++ "/json/" ++ jsTemplateString (getField (JSVal.obj client) "version")
      ++ "/" ++ action)),
   ("json", data),
   ("responseType", JSVal.str "json")]

/-- parseResponse: resolve with response.body.response when
response.statusCode === 200 and response.body.status_code === 200,
otherwise reject with the Error built from response.body.status_message. -/
def parseResponse (response : JSVal) : Except String JSVal :=
  if strictEqNum (getField response "statusCode") 200 = true ∧
      strictEqNum (getField (getField response "body") "status_code") 200 = true then
    Except.ok (getField (getField response "body") "response")
  else
    Except.error ("Pushwoosh API responded with argument error: "
      ++ jsTemplateString (getField (getField response "body") "status_message"))

/-- The defaults object local to sendMessage. -/
def sendMessageDefaults : JSVal :=
  JSVal.obj
    [("send_date", JSVal.str "now"),
     ("ignore_user_timezone", JSVal.bool true),
     ("minimize_link", JSVal.num 0)]

/-- The single notification sendMessage builds:
_.extend({}, defaults, options). -/
def sendMessageNotification (options : JSVal) : List (String × JSVal) :=
  extendFields (extendFields [] sendMessageDefaults) options

/-- The body.request object sendMessage builds: auth and notifications,
then application_group = this.app when this.useAppGroup is truthy, else
application = this.app. -/
def sendMessageRequestFields (client : List (String × JSVal)) (options : JSVal) :
    List (String × JSVal) :=
  let req := [("auth", getField (JSVal.obj client) "token"),
              ("notifications", JSVal.arr [JSVal.obj (sendMessageNotification options)])]
  if truthy (getField (JSVal.obj client) "useAppGroup") = true then
    setField req "application_group" (getField (JSVal.obj client) "app")
  else
    setField req "application" (getField (JSVal.obj client) "app")

/-- sendMessage(options, cb): the executor performs no validation of any
kind; it unconditionally builds the body and delegates to
sendRequest("createMessage", body). An error result would mean a
rejection raised before the network call; there is none. -/
def sendMessage (client : List (String × JSVal)) (options : JSVal) :
    Except String Request :=
  Except.ok
    { action := "createMessage",
      body := JSVal.obj [("request", JSVal.obj (sendMessageRequestFields client options))] }

/-- registerDevice(options, cb): reject unless options.push_token is a
string; reject WHEN options.hwid is a string; reject WHEN
options.device_type is a number; otherwise send
{request: _.extend({}, {application: this.app}, options)} via
"registerDevice". The two inverted conditions are transcribed exactly as
the code has them. -/
def registerDevice (client : List (String × JSVal)) (options : JSVal) :
    Except String Request :=
  if isString (getField options "push_token") = false then
    Except.error "Device push token is mandatory (string)"
  else if isString (getField options "hwid") = true then
    Except.error "Device hwid token is mandatory (string)"
  else if isNumber (getField options "device_type") = true then
    Except.error "Device type is mandatory (number)"
  else
    Except.ok
      { action := "registerDevice",
        body := JSVal.obj
          [("request", JSVal.obj
            (extendFields
              (extendFields [] (JSVal.obj [("application", getField (JSVal.obj client) "app")]))
              options))] }

/-- deleteMessage(code, cb): reject unless code is a string; otherwise
send {request: {auth: this.token, message: code}} via "deleteMessage". -/
def deleteMessage (client : List (String × JSVal)) (code : JSVal) :
    Except String Request :=
  if isString code = false then
    Except.error "Message id is mandatory (string)"
  else
    Except.ok
      { action := "deleteMessage",
        body := JSVal.obj
          [("request", JSVal.obj
            [("auth", getField (JSVal.obj client) "token"), ("message", code)])] }

/-! ## The dual promise/callback completion helpers -/

/-- Array.prototype.unshift(v): prepends v in place and RETURNS THE NEW
LENGTH of the array, a number, not the array itself. The pair is (the
mutated array, the returned value). -/
def jsUnshift (a : List JSVal) (v : JSVal) : List JSVal × JSVal :=
  (v :: a, JSVal.num ((a.length : Int) + 1))

/-- CreateListFromArrayLike, the coercion Function.prototype.apply uses
on its second argument: null and undefined give an empty argument list,
an array gives its elements, a plain object reads its (undefined) length
as zero, and any primitive raises a TypeError. -/
def createListFromArrayLike : JSVal → Except String (List JSVal)
  | JSVal.arr xs => Except.ok xs
  | JSVal.nullV => Except.ok []
  | JSVal.undef => Except.ok []
  | JSVal.obj _ => Except.ok []
  | JSVal.fn => Except.ok []
  | _ => Except.error "TypeError: CreateListFromArrayLike called on non-object"

/-- What one call of a completion helper does: either it completes,
recording the argument list the callback was invoked with (none when no
callback was supplied) and the value the promise was settled with, or it
throws before settling anything. -/
inductive CompletionOutcome where
  | completed (cbCall : Option (List JSVal)) (settledWith : JSVal)
  | threw (msg : String)
  deriving Repr

/-- handleSuccess(resolve, cb, ...rest): args = toArray(arguments).slice(2);
if cb is a function, cb.apply(this, args.unshift(null)) — the apply
argument is the number unshift returns; then resolve.apply(this, args),
which settles the promise with the first element of the (possibly
mutated) args. -/
def handleSuccess (cb : JSVal) (args : List JSVal) : CompletionOutcome :=
  if isFunction cb = true then
    let u := jsUnshift args JSVal.nullV
    match createListFromArrayLike u.2 with
    | Except.ok cbArgs => CompletionOutcome.completed (some cbArgs) (u.1.headD JSVal.undef)
    | Except.error e => CompletionOutcome.threw e
  else
    CompletionOutcome.completed none (args.headD JSVal.undef)

/-- handleRejection(reject, cb, ...rest): args = toArray(arguments).slice(2);
if cb is a function, cb.apply(this, args) — here the apply argument is
the actual array; then reject.apply(this, args). -/
def handleRejection (cb : JSVal) (args : List JSVal) : CompletionOutcome :=
  if isFunction cb = true then
    match createListFromArrayLike (JSVal.arr args) with
    | Except.ok cbArgs => CompletionOutcome.completed (some cbArgs) (args.headD JSVal.undef)
    | Except.error e => CompletionOutcome.threw e
  else
    CompletionOutcome.completed none (args.headD JSVal.undef)

/-! ## Helper lemmas about property assignment and _.extend -/

theorem getAssoc_setField (fs : List (String × JSVal)) (k : String) (v : JSVal)
    (k' : String) :
    getAssoc (setField fs k v) k' = if k = k' then some v else getAssoc fs k' := by
  induction fs with
  | nil => simp [setField, getAssoc]
  | cons hd tl ih =>
      obtain ⟨k₀, v₀⟩ := hd
      by_cases h₀ : k₀ = k
      · subst h₀
        by_cases h₁ : k₀ = k'
        · subst h₁
          simp [setField, getAssoc]
        · simp [setField, getAssoc, h₁]
      · by_cases h₁ : k₀ = k'
        · subst h₁
          have h₂ : ¬ k = k₀ := fun h => h₀ h.symm
          simp [setField, getAssoc, h₀, h₂]
        · simp [setField, getAssoc, h₀, h₁, ih]

theorem getAssoc_foldl_setField (src : List (String × JSVal))
    (acc : List (String × JSVal)) (k : String) :
    getAssoc (src.foldl (fun a kv => setField a kv.1 kv.2) acc) k =
      match lastAssoc src k with
      | some v => some v
      | none => getAssoc acc k := by
  induction src generalizing acc with
  | nil => simp [lastAssoc]
  | cons hd tl ih =>
      obtain ⟨k₀, v₀⟩ := hd
      have step : ((k₀, v₀) :: tl).foldl (fun a kv => setField a kv.1 kv.2) acc =
          tl.foldl (fun a kv => setField a kv.1 kv.2) (setField acc k₀ v₀) := rfl
      rw [step, ih]
      cases htl : lastAssoc tl k with
      | some w => simp [lastAssoc, htl]
      | none =>
          by_cases hk : k₀ = k
          · subst hk
            simp [lastAssoc, htl, getAssoc_setField]
          · simp [lastAssoc, htl, hk, getAssoc_setField]

theorem getAssoc_extendFields (acc : List (String × JSVal)) (src : JSVal)
    (k : String) :
    getAssoc (extendFields acc src) k =
      match lastAssoc (sourceFields src) k with
      | some v => some v
      | none => getAssoc acc k :=
  getAssoc_foldl_setField (sourceFields src) acc k

/-- The base object _.extend({}, defaults, options) starts from inside
sendMessage, computed out. -/
theorem sendMessageBase_eval :
    extendFields [] sendMessageDefaults =
      [("send_date", JSVal.str "now"),
       ("ignore_user_timezone", JSVal.bool true),
       ("minimize_link", JSVal.num 0)] := rfl

/-- Lookup characterization of the notification sendMessage builds: a key
takes the last value the options source assigns to it, and otherwise the
value from the sendMessage defaults. -/
theorem getAssoc_sendMessageNotification (options : JSVal) (k : String) :
    getAssoc (sendMessageNotification options) k =
      match lastAssoc (sourceFields options) k with
      | some v => some v
      | none =>
          getAssoc
            [("send_date", JSVal.str "now"),
             ("ignore_user_timezone", JSVal.bool true),
             ("minimize_link", JSVal.num 0)] k := by
  have h := getAssoc_extendFields (extendFields [] sendMessageDefaults) options k
  rw [sendMessageBase_eval] at h
  exact h

theorem strictEqNum_true_iff (v : JSVal) (n : Int) :
    strictEqNum v n = true ↔ v = JSVal.num n := by
  cases v <;> simp [strictEqNum]

/-! ## Concrete inputs used in the claim theorems -/

/-- A registration that is valid in the sense of the claim: string
push_token, string hwid, numeric device_type. -/
def validRegistration : JSVal :=
  JSVal.obj [("push_token", JSVal.str "tok-1"), ("hwid", JSVal.str "hw-1"),
             ("device_type", JSVal.num 3)]

/-- A registration that is invalid in the sense of the claim: its hwid is
a number and its device_type a string. -/
def invalidRegistration : JSVal :=
  JSVal.obj [("push_token", JSVal.str "tok-1"), ("hwid", JSVal.num 7),
             ("device_type", JSVal.str "ios")]

/-- A response envelope with HTTP status 200 and body status_code 200. -/
def okEnvelope : JSVal :=
  JSVal.obj [("statusCode", JSVal.num 200),
    ("body", JSVal.obj [("status_code", JSVal.num 200), ("response", JSVal.str "payload")])]

/-- A response envelope with HTTP status 200 but body status_code 210. -/
def badEnvelope : JSVal :=
  JSVal.obj [("statusCode", JSVal.num 200),
    ("body", JSVal.obj [("status_code", JSVal.num 210), ("status_message", JSVal.str "bad")])]

/-! ## The claims -/

/-- C1: the claim says registerDevice fails exactly when push_token is
not a string, or hwid is not a string, or device_type is not a number,
and otherwise proceeds. The code does the opposite on the last two
checks: it rejects the fully valid registration (string push_token,
string hwid, numeric device_type) with the hwid error, and it accepts
and sends a registration whose hwid is a number and whose device_type is
a string — the hwid and device_type conditions are inverted, and the
error messages of the code itself state the intended requirement. -/
theorem C1_registerDevice_inverted_validation :
    (isString (getField validRegistration "push_token") = true ∧
     isString (getField validRegistration "hwid") = true ∧
     isNumber (getField validRegistration "device_type") = true ∧
     registerDevice demoClient validRegistration =
       Except.error "Device hwid token is mandatory (string)") ∧
    (isString (getField invalidRegistration "hwid") = false ∧
     isNumber (getField invalidRegistration "device_type") = false ∧
     ∃ r, registerDevice demoClient invalidRegistration = Except.ok r ∧
       r.action = "registerDevice") :=
  ⟨⟨rfl, rfl, rfl, rfl⟩, ⟨rfl, rfl, ⟨_, rfl, rfl⟩⟩⟩

/-- C2 counterexample: constructing with the empty-string applicationId
succeeds, contradicting the claim that construction with an empty-string
applicationId fails. -/
theorem C2_empty_string_accepted :
    ∃ c, construct (JSVal.str "") (JSVal.str "tok") JSVal.undef = Except.ok c :=
  ⟨_, rfl⟩

/-- C2 (amended): construction fails, with the configuration error, if
and only if applicationId or authToken is not a string; any string
(the empty string included) is accepted, and any non-string value always
fails. -/
theorem C2_construct_validation (app token options : JSVal) :
    construct app token options =
        Except.error "Pushwoosh Application ID and an Authentication Token must be set"
      ↔ (isString app = false ∨ isString token = false) := by
  by_cases h : isString app = false ∨ isString token = false <;> simp [construct, h]

/-- C2 witness: the amended iff applied to a numeric applicationId. -/
theorem C2_construct_validation_witness :
    construct (JSVal.num 1) (JSVal.str "tok") JSVal.undef =
      Except.error "Pushwoosh Application ID and an Authentication Token must be set" :=
  (C2_construct_validation (JSVal.num 1) (JSVal.str "tok") JSVal.undef).mpr (Or.inl rfl)

/-- C3: parseResponse succeeds with envelope.body.response exactly when
the HTTP status is 200 and the body status_code is 200, and in every
other combination it fails with the error built from the body
status_message. -/
theorem C3_parseResponse_envelope (response : JSVal) :
    (parseResponse response = Except.ok (getField (getField response "body") "response")
      ↔ (getField response "statusCode" = JSVal.num 200 ∧
         getField (getField response "body") "status_code" = JSVal.num 200)) ∧
    (parseResponse response =
        Except.error ("Pushwoosh API responded with argument error: "
          ++ jsTemplateString (getField (getField response "body") "status_message"))
      ↔ ¬(getField response "statusCode" = JSVal.num 200 ∧
          getField (getField response "body") "status_code" = JSVal.num 200)) := by
  by_cases h : getField response "statusCode" = JSVal.num 200 ∧
      getField (getField response "body") "status_code" = JSVal.num 200
  · have hb : strictEqNum (getField response "statusCode") 200 = true ∧
        strictEqNum (getField (getField response "body") "status_code") 200 = true :=
      ⟨(strictEqNum_true_iff _ _).mpr h.1, (strictEqNum_true_iff _ _).mpr h.2⟩
    simp [parseResponse, hb, h, strictEqNum]
  · have hb : ¬(strictEqNum (getField response "statusCode") 200 = true ∧
        strictEqNum (getField (getField response "body") "status_code") 200 = true) := by
      intro hc
      exact h ⟨(strictEqNum_true_iff _ _).mp hc.1, (strictEqNum_true_iff _ _).mp hc.2⟩
    simp [parseResponse, hb, h]

/-- C3 witness: the characterization applied to a succeeding and to a
failing concrete envelope. -/
theorem C3_parseResponse_envelope_witness :
    parseResponse okEnvelope = Except.ok (JSVal.str "payload") ∧
    parseResponse badEnvelope =
      Except.error "Pushwoosh API responded with argument error: bad" := by
  constructor
  · exact (C3_parseResponse_envelope okEnvelope).1.mpr ⟨rfl, rfl⟩
  · have h := (C3_parseResponse_envelope badEnvelope).2.mpr
      (by rintro ⟨-, h⟩; simp [badEnvelope, getField, getAssoc] at h)
    simpa [badEnvelope, getField, getAssoc, jsTemplateString] using h

/-- C4: the claim says that with a supplied completion callback the
success path invokes the callback once with (null, ...results) and the
promise resolves. In the code, handleSuccess passes args.unshift(null) —
the new length that Array.prototype.unshift returns, a number — as the
argument list of Function.prototype.apply, which throws a TypeError, so
with a callback supplied the success helper throws instead of invoking
the callback and resolving (without a callback it resolves once; the
rejection helper, which passes the array itself, does invoke the
callback). -/
theorem C4_handleSuccess_callback_typeerror :
    handleSuccess JSVal.fn [JSVal.str "api-response"] =
      CompletionOutcome.threw "TypeError: CreateListFromArrayLike called on non-object" ∧
    handleSuccess JSVal.undef [JSVal.str "api-response"] =
      CompletionOutcome.completed none (JSVal.str "api-response") ∧
    handleRejection JSVal.fn [JSVal.str "transport-error"] =
      CompletionOutcome.completed (some [JSVal.str "transport-error"])
        (JSVal.str "transport-error") :=
  ⟨rfl, rfl, rfl⟩

/-- C5 counterexample: sendMessage with an options object from which no
string content can be resolved (here: no content at all) does not fail
with a ValidationError — it proceeds to issue the createMessage
request. -/
theorem C5_no_content_still_sends :
    ∃ r, sendMessage demoClient (JSVal.obj []) = Except.ok r ∧
      r.action = "createMessage" :=
  ⟨_, rfl, rfl⟩

/-- C5 (amended): sendMessage takes a single options argument and
performs no content validation at all: for every client and every
options value it proceeds to issue the createMessage request built from
that options value, and never fails with a ValidationError. -/
theorem C5_sendMessage_never_validates (client : List (String × JSVal)) (options : JSVal) :
    ∃ r, sendMessage client options = Except.ok r ∧ r.action = "createMessage" :=
  ⟨_, rfl, rfl⟩

/-- C6 counterexample: even on a client constructed with a timeout of
5000, the option object handed to got contains no timeout key, so the
configured timeout is not applied to the transport request. -/
theorem C6_timeout_not_passed :
    getField (JSVal.obj timeoutClient) "timeout" = JSVal.num 5000 ∧
    getAssoc (sendRequestGotOptions timeoutClient "createMessage" (JSVal.obj []))
      "timeout" = none :=
  ⟨rfl, rfl⟩

/-- C6 (amended): for every action and body, sendRequest issues a single
POST to https://(host)/json/(version)/(action) with the body JSON-encoded
as the json option of got, but it sets no timeout option on the
transport request. -/
theorem C6_sendRequest_post_shape (client : List (String × JSVal))
    (host version action : String) (data : JSVal)
    (hh : getField (JSVal.obj client) "host" = JSVal.str host)
    (hv : getField (JSVal.obj client) "version" = JSVal.str version) :
    sendRequestGotOptions client action data =
      [("method", JSVal.str "POST"),
       ("url", JSVal.str ("https://" ++ host ++ "/json/" ++ version ++ "/" ++ action)),
       ("json", data),
       ("responseType", JSVal.str "json")] ∧
    getAssoc (sendRequestGotOptions client action data) "timeout" = none := by
  constructor
  · simp [sendRequestGotOptions, hh, hv, jsTemplateString]
  · simp [sendRequestGotOptions, getAssoc]

/-- C6 witness: the amended statement applied to the default client and
the createMessage action. -/
theorem C6_sendRequest_post_shape_witness :
    sendRequestGotOptions demoClient "createMessage" (JSVal.obj []) =
      [("method", JSVal.str "POST"),
       ("url", JSVal.str "https://cp.pushwoosh.com/json/1.3/createMessage"),
       ("json", JSVal.obj []),
       ("responseType", JSVal.str "json")] ∧
    getAssoc (sendRequestGotOptions demoClient "createMessage" (JSVal.obj []))
      "timeout" = none := by
  have h := C6_sendRequest_post_shape demoClient "cp.pushwoosh.com" "1.3"
    "createMessage" (JSVal.obj []) rfl rfl
  simpa using h

/-- C7 counterexample: sendMessage applied to the bare string hello does
not produce a notification with content hello — a string options
argument contributes only its character index keys to the extend, so the
notification has no content key at all, while the defaults survive. -/
theorem C7_bare_string_no_content :
    getAssoc (sendMessageNotification (JSVal.str "hello")) "content" = none ∧
    getAssoc (sendMessageNotification (JSVal.str "hello")) "0" = some (JSVal.str "h") ∧
    getAssoc (sendMessageNotification (JSVal.str "hello")) "send_date" =
      some (JSVal.str "now") ∧
    getAssoc (sendMessageNotification (JSVal.str "hello")) "ignore_user_timezone" =
      some (JSVal.bool true) :=
  ⟨rfl, rfl, rfl, rfl⟩

/-- C7 (amended): the single notification is built by overlaying the
caller options onto the defaults (send_date now, ignore_user_timezone
true, minimize_link 0): every key holds the last value the options
source assigns to it, and otherwise its default; content is not forced
and is present only when the options themselves supply it. -/
theorem C7_notification_overlay (options : JSVal) (k : String) :
    getAssoc (sendMessageNotification options) k =
      match lastAssoc (sourceFields options) k with
      | some v => some v
      | none =>
          getAssoc
            [("send_date", JSVal.str "now"),
             ("ignore_user_timezone", JSVal.bool true),
             ("minimize_link", JSVal.num 0)] k :=
  getAssoc_sendMessageNotification options k

/-- C8: when the useAppGroup flag of the client is truthy, the
body.request object that sendMessage builds carries application_group
set to the app id and no application key; when the flag is falsy it
carries application set to the app id and no application_group key. -/
theorem C8_application_group_switch (client : List (String × JSVal)) (options : JSVal) :
    (truthy (getField (JSVal.obj client) "useAppGroup") = true →
      getAssoc (sendMessageRequestFields client options) "application_group" =
          some (getField (JSVal.obj client) "app") ∧
      getAssoc (sendMessageRequestFields client options) "application" = none) ∧
    (truthy (getField (JSVal.obj client) "useAppGroup") = false →
      getAssoc (sendMessageRequestFields client options) "application" =
          some (getField (JSVal.obj client) "app") ∧
      getAssoc (sendMessageRequestFields client options) "application_group" = none) := by
  constructor <;> intro h <;> simp [sendMessageRequestFields, h, setField, getAssoc]

/-- C8 witness: the switch applied to a client constructed with
useAppGroup true and to one constructed without it. -/
theorem C8_application_group_switch_witness :
    (getAssoc (sendMessageRequestFields groupClient (JSVal.obj [])) "application_group" =
        some (JSVal.str "APP-ID") ∧
     getAssoc (sendMessageRequestFields groupClient (JSVal.obj [])) "application" = none) ∧
    (getAssoc (sendMessageRequestFields demoClient (JSVal.obj [])) "application" =
        some (JSVal.str "APP-ID") ∧
     getAssoc (sendMessageRequestFields demoClient (JSVal.obj [])) "application_group" =
       none) :=
  ⟨(C8_application_group_switch groupClient (JSVal.obj [])).1 rfl,
   (C8_application_group_switch demoClient (JSVal.obj [])).2 rfl⟩

/-- C9: deleteMessage rejects every non-string messageId with the
validation error, issuing no request, and for every string messageId it
sends exactly the body with request.auth the token and request.message
the messageId, via the deleteMessage action. -/
theorem C9_deleteMessage_validation (client : List (String × JSVal)) (code : JSVal) :
    (isString code = false →
      deleteMessage client code = Except.error "Message id is mandatory (string)") ∧
    (∀ s, code = JSVal.str s →
      deleteMessage client code =
        Except.ok
          { action := "deleteMessage",
            body := JSVal.obj [("request", JSVal.obj
              [("auth", getField (JSVal.obj client) "token"),
               ("message", JSVal.str s)])] }) := by
  constructor
  · intro h
    simp [deleteMessage, h]
  · rintro s rfl
    simp [deleteMessage, isString]

/-- C9 witness: deleteMessage applied to the number 42 rejects, and to a
string messageId sends the exact body. -/
theorem C9_deleteMessage_validation_witness :
    deleteMessage demoClient (JSVal.num 42) =
      Except.error "Message id is mandatory (string)" ∧
    deleteMessage demoClient (JSVal.str "m-1") =
      Except.ok
        { action := "deleteMessage",
          body := JSVal.obj [("request", JSVal.obj
            [("auth", JSVal.str "AUTH-TOKEN"), ("message", JSVal.str "m-1")])] } :=
  ⟨(C9_deleteMessage_validation demoClient (JSVal.num 42)).1 rfl,
   (C9_deleteMessage_validation demoClient (JSVal.str "m-1")).2 "m-1" rfl⟩

/-- C10: when the caller options assign no minimize_link, the outgoing
notification carries the undocumented default minimize_link = 0; when
the options do assign it, the assigned value overrides the default. -/
theorem C10_minimize_link_default (options : JSVal) :
    (lastAssoc (sourceFields options) "minimize_link" = none →
      getAssoc (sendMessageNotification options) "minimize_link" =
        some (JSVal.num 0)) ∧
    (∀ v, lastAssoc (sourceFields options) "minimize_link" = some v →
      getAssoc (sendMessageNotification options) "minimize_link" = some v) := by
  have h := getAssoc_sendMessageNotification options "minimize_link"
  constructor
  · intro hn
    rw [h, hn]
    rfl
  · intro v hv
    rw [h, hv]

/-- C10 witness: the default present for options without minimize_link,
and overridden for options that supply it. -/
theorem C10_minimize_link_default_witness :
    getAssoc (sendMessageNotification (JSVal.obj [("content", JSVal.str "hi")]))
      "minimize_link" = some (JSVal.num 0) ∧
    getAssoc (sendMessageNotification (JSVal.obj [("minimize_link", JSVal.num 5)]))
      "minimize_link" = some (JSVal.num 5) :=
  ⟨(C10_minimize_link_default (JSVal.obj [("content", JSVal.str "hi")])).1 rfl,
   (C10_minimize_link_default (JSVal.obj [("minimize_link", JSVal.num 5)])).2
     (JSVal.num 5) rfl⟩

end Pushwoosh
